import Mathlib

/-!
Verification of the PharmCAT VCF preprocessor orchestrator
(`src/scripts/preprocessor/PharmCAT_VCF_Preprocess.py`).

The script is sequential glue: it validates tool versions, classifies the
`-vcf` argument, resolves an output directory, a reference genome and a
sample list, runs a four-stage external pipeline and finally removes the
intermediate artifacts.  We embed the `run` function as a chain of pure
phase functions over an explicit `Trace` state.  External effects
(filesystem queries, subprocess output, the external bcftools/bgzip
toolchain) are supplied by a `World` of oracles; functions of the
`vcf_preprocess_utilities` module, whose source is not part of this
repository snapshot, are modelled from the specification and marked as
such in their doc comments.

All string manipulation is implemented by structural recursion over
`List Char` so that every definition evaluates by kernel reduction.
-/

namespace PharmCAT

/-- Python `str.strip()` default whitespace characters (ASCII range). -/
def pyIsSpaceChar (c : Char) : Bool :=
  c = ' ' || c = '\t' || c = '\n' || c = '\r' || c = '\x0b' || c = '\x0c'

/-- Python `str.strip()`: remove leading and trailing whitespace. -/
def pyStrip (s : String) : String :=
  String.mk (((s.toList.dropWhile pyIsSpaceChar).reverse.dropWhile pyIsSpaceChar).reverse)

/-- Split a character list on a separator, like Python `str.split(sep)`. -/
def charsSplitOn (sep : Char) : List Char → List String
  | [] => [""]
  | c :: rest =>
    let r := charsSplitOn sep rest
    if c = sep then "" :: r
    else
      match r with
      | [] => [String.mk [c]]
      | h :: t => String.mk (c :: h.toList) :: t

/-- Decimal digit string to `Nat` (the version components matched by the
regexes `bcftools (\d+(\.\d+)*)` and `Version: (\d+(\.\d+)*)` are digit
strings, so this agrees with Python `int`). -/
def digitsToNat (s : String) : Nat :=
  s.toList.foldl (fun n c => n * 10 + (c.toNat - 48)) 0

/-- The release tuple of a dotted numeric version string, as built by
`packaging.version.parse`. -/
def parseRelease (s : String) : List Nat :=
  (charsSplitOn '.' s.toList).map digitsToNat

def allZero (l : List Nat) : Bool := l.all (· = 0)

/-- Comparison of release tuples as performed by `packaging.version`:
componentwise numeric comparison, with missing components equal to zero
(so `1.0` and `1.0.0` compare equal). -/
def releaseCmp : List Nat → List Nat → Ordering
  | [], ys => if allZero ys then .eq else .lt
  | x :: xs, [] => if allZero (x :: xs) then .eq else .gt
  | x :: xs, y :: ys =>
    if x < y then .lt else if y < x then .gt else releaseCmp xs ys

def releaseLt (a b : List Nat) : Bool :=
  match releaseCmp a b with
  | .lt => true
  | _ => false

/-- Models `version.parse(v1) < version.parse(v2)` for dotted numeric versions. -/
def pyVersionLt (v1 v2 : String) : Bool :=
  releaseLt (parseRelease v1) (parseRelease v2)

theorem releaseCmp_swap (a b : List Nat) : releaseCmp b a = (releaseCmp a b).swap := by
  induction a generalizing b with
  | nil =>
    cases b with
    | nil => rfl
    | cons y ys =>
      simp only [releaseCmp]
      split <;> rfl
  | cons x xs ih =>
    cases b with
    | nil =>
      simp only [releaseCmp]
      split <;> rfl
    | cons y ys =>
      simp only [releaseCmp]
      rcases Nat.lt_trichotomy x y with h | h | h
      · simp only [if_pos h, if_neg (Nat.lt_asymm h)]
        rfl
      · subst h
        simp only [if_neg (Nat.lt_irrefl x)]
        exact ih ys
      · simp only [if_pos h, if_neg (Nat.lt_asymm h)]
        rfl

theorem releaseLt_asymm {a b : List Nat} (h : releaseLt a b = true) :
    releaseLt b a = false := by
  unfold releaseLt at h ⊢
  cases hord : releaseCmp a b with
  | lt => rw [releaseCmp_swap a b, hord]; rfl
  | eq => rw [hord] at h; exact absurd h (by decide)
  | gt => rw [hord] at h; exact absurd h (by decide)

/-! ### Path manipulation, following the `os.path` functions the script uses -/

/-- Python `os.path.basename`: the component after the last `/`. -/
def pathBasename (p : String) : String :=
  String.mk (p.toList.foldl (fun acc c => if c = '/' then [] else acc ++ [c]) [])

/-- Bool-valued suffix test on strings. -/
def strEndsWith (s suff : String) : Bool :=
  suff.toList.isSuffixOf s.toList

/-- The test `re.search('[.]vcf([.]b?gz)?$', os.path.basename(args.vcf))`:
the basename ends in `.vcf`, `.vcf.gz` or `.vcf.bgz`. -/
def isVcfName (p : String) : Bool :=
  strEndsWith (pathBasename p) ".vcf" ||
  strEndsWith (pathBasename p) ".vcf.gz" ||
  strEndsWith (pathBasename p) ".vcf.bgz"

/-- Python `os.path.join` for two components. -/
def joinPath (a b : String) : String :=
  if b.toList.head? = some '/' then b
  else if a = "" then b
  else if a.toList.getLast? = some '/' then a ++ b
  else a ++ "/" ++ b

/-- Python `os.path.split(p)[0]`: everything before the last `/`, with trailing
slashes stripped unless the head is all slashes. -/
def splitDirStr (p : String) : String :=
  let cs := p.toList
  if cs.contains '/' then
    let head := (cs.reverse.dropWhile (fun c => !(c = '/'))).reverse
    if head.all (fun c => c = '/') then String.mk head
    else String.mk (head.reverse.dropWhile (fun c => c = '/')).reverse
  else ""

/-- Python `os.path.splitext(p)[0]`: drop the extension of the last path
component (leading dots of the component do not start an extension). -/
def splitextRoot (p : String) : String :=
  let comps := charsSplitOn '/' p.toList
  let l := comps.getLast?.getD ""
  let leading := l.toList.takeWhile (fun c => c = '.')
  let rest := l.toList.dropWhile (fun c => c = '.')
  if rest.contains '.' then
    let pieces := charsSplitOn '.' rest
    let rootLast := String.mk leading ++ String.intercalate "." pieces.dropLast
    String.intercalate "/" (comps.dropLast ++ [rootLast])
  else p

/-- Python truthiness of an optional string argument (`None` and the
empty string are falsy). -/
def pyTruthy : Option String → Bool
  | none => false
  | some s => !(s = "")

def strContainsChar (s : String) (c : Char) : Bool := s.toList.contains c

/-- Lexicographic (codepoint) comparison of character lists, the ordering
Python uses for `str < str`. -/
def lexCharsLt : List Char → List Char → Bool
  | [], [] => false
  | [], _ :: _ => true
  | _ :: _, [] => false
  | c :: cs, d :: ds => if c < d then true else if d < c then false else lexCharsLt cs ds

/-- Lexicographic string comparison. -/
def lexStrLt (a b : String) : Bool := lexCharsLt a.toList b.toList

/-! ### Data model

`Args` mirrors the argparse namespace handed to `run`; `World` supplies
the observable behaviour of the filesystem and of the external toolchain
(black-box collaborators per the spec); `Trace` is the observable state
accumulated by one invocation of `run`. -/

structure Args where
  vcf : String
  reference_pgx_vcf : String
  reference_genome : Option String
  sample_file : Option String
  path_to_bcftools : Option String
  path_to_bgzip : Option String
  output_dir : Option String
  base_filename : Option String
  keep_intermediate_files : Bool
  missing_to_ref : Bool

structure World where
  /-- Result of `re.search(r'bcftools (\d+(\.\d+)*)', ...)` on the output
  of `bcftools -v` (the captured group, when the regex matches). -/
  bcftoolsVerMatch : Option String
  /-- Result of `re.search(r'Version: (\d+(\.\d+)*)', ...)` on the output
  of `bgzip -h`. -/
  bgzipVerMatch : Option String
  /-- Models `os.path.exists`. -/
  pathExists : String → Bool
  /-- Models `os.path.isfile`. -/
  isFile : String → Bool
  /-- Models `os.path.realpath`. -/
  realpath : String → String
  /-- Models `os.getcwd()`. -/
  cwd : String
  /-- Whether a file is already block-compressed (consulted by
  `util.bgzipped_vcf`). -/
  isBgzipped : String → Bool
  /-- Lines of a text file, as iterated by `for line in file`. -/
  fileLines : String → List String
  /-- Models `util.obtain_vcf_sample_list`: the sample identifiers embedded in a
  VCF file. -/
  vcfSamples : String → List String
  /-- Path returned by the region-subset stage
  (`util.extract_regions_from_multiple_files` / `..._single_file`). -/
  regionsOut : String
  /-- Path returned by `util.normalize_vcf`. -/
  normalizedOut : String
  /-- Path returned by `util.filter_pgx_variants`. -/
  pgxOnlyOut : String
  /-- Per-sample output files written by `util.output_pharmcat_ready_vcf`. -/
  perSampleOuts : List String

structure Trace where
  prints : List String
  exitCode : Option Nat
  checkedBgzip : Bool
  inputVcf : String
  inputList : String
  inputBasename : String
  compressRan : Bool
  baseFilename : String
  outputDir : String
  referenceGenome : String
  downloadRan : Bool
  indexedRefPgx : Bool
  sampleList : List String
  regionSubsetRan : Bool
  usedMultiExtract : Bool
  normalizeRan : Bool
  filterRan : Bool
  perSampleEmitRan : Bool
  tmpFiles : List String
  emittedFiles : List String
  removed : List String

/-- The state at the top of `run`: nothing printed, nothing resolved. -/
def Trace.init : Trace :=
  { prints := [], exitCode := none, checkedBgzip := false, inputVcf := "",
    inputList := "", inputBasename := "", compressRan := false,
    baseFilename := "", outputDir := "", referenceGenome := "",
    downloadRan := false, indexedRefPgx := false, sampleList := [],
    regionSubsetRan := false, usedMultiExtract := false,
    normalizeRan := false, filterRan := false, perSampleEmitRan := false,
    tmpFiles := [], emittedFiles := [], removed := [] }

/-! ### Constants and messages from the script -/

def MIN_BCFTOOLS_VERSION : String := "1.16"
def MIN_BGZIP_VERSION : String := "1.16"

def bcftoolsLowMsg (minV : String) : String :=
  "Please use bcftools " ++ minV ++ " or higher"

def bcftoolsNoVerMsg : String :=
  "Could not find the version information for bcftools"

def bgzipLowMsg (minV : String) : String :=
  "Please use bgzip " ++ minV ++ " or higher"

def bgzipNoVerMsg (minV : String) : String :=
  "Could not find the version information for bgzip\nIt is likely you are using a bgzip <= 1.9\nPlease use bgzip " ++ minV ++ " or higher"

def commaMsg : String :=
  "Please remove comma \x27,\x27 from sample names, which violates bcftools sample name convention"

/-! ### Modelled utility functions (their module is not part of this
repository snapshot; behaviour follows the specification) -/

/-- Modelled from the spec: name of the block-compressed copy written by
`util.bgzipped_vcf` when the input is not yet block-compressed. -/
def bgzCopyName (p : String) : String := p ++ ".bgz"

/-- Modelled from the spec: `util.bgzipped_vcf` ensures the input VCF is
block-compressed, compressing a copy if not; returns whether compression
ran and the resulting path. -/
def bgzippedVcf (w : World) (p : String) : Bool × String :=
  if w.isBgzipped p then (false, p) else (true, bgzCopyName p)

/-- Modelled from the spec: `util.get_vcf_prefix` strips the compression
and file extensions from the basename of a VCF path. -/
def getVcfPrefix (p : String) : String :=
  let b := pathBasename p
  if strEndsWith b ".vcf.bgz" then String.mk (b.toList.take (b.toList.length - 8))
  else if strEndsWith b ".vcf.gz" then String.mk (b.toList.take (b.toList.length - 7))
  else if strEndsWith b ".vcf" then String.mk (b.toList.take (b.toList.length - 4))
  else b

/-- Modelled from the spec: `util.get_default_grch38_ref_fasta_and_index`
downloads the default GRCh38 reference into the output directory and
returns its path. -/
def downloadedRefName (outDir : String) : String :=
  joinPath outDir "reference.fna.bgz"

/-- Modelled from the spec: `util.remove_vcf_and_index` deletes the given
file and its companion index file. -/
def removeVcfAndIndex (p : String) : List String := [p, p ++ ".csi"]

/-! ### The phases of `run` (lines 21-189 of the script)

Each phase is guarded by `if t.exitCode.isSome then t else ...`: in
Python, `sys.exit(1)` unwinds the rest of the function, which in this
linear composition corresponds to every later phase acting as the
identity once `exitCode` is set. -/

/-- Lines 28-42: validate bcftools.  A parsed version below the minimum
is fatal; an unparseable version only warns. -/
def bcftoolsPhase (minV : String) (m : Option String) (t : Trace) : Trace :=
  if t.exitCode.isSome then t else
  match m with
  | some cur =>
    if pyVersionLt cur minV then
      { t with prints := t.prints ++ [bcftoolsLowMsg minV], exitCode := some 1 }
    else t
  | none =>
    { t with prints := t.prints ++ [bcftoolsNoVerMsg, bcftoolsLowMsg minV] }

/-- Lines 43-58: validate bgzip.  A parsed version below the minimum is
fatal; an unparseable version is also fatal. -/
def bgzipPhase (minV : String) (m : Option String) (t : Trace) : Trace :=
  if t.exitCode.isSome then t else
  let t1 := { t with checkedBgzip := true }
  match m with
  | some cur =>
    if pyVersionLt cur minV then
      { t1 with prints := t1.prints ++ [bgzipLowMsg minV], exitCode := some 1 }
    else t1
  | none =>
    { t1 with prints := t1.prints ++ [bgzipNoVerMsg minV], exitCode := some 1 }

/-- Lines 60-82: classify the `vcf` argument as a single VCF (basename
matches the suffix regex) or a list file, check existence, block-compress
a single VCF if needed, and derive the input basename. -/
def inputPhase (w : World) (args : Args) (t : Trace) : Trace :=
  if t.exitCode.isSome then t else
  let iv := if isVcfName args.vcf then args.vcf else ""
  let il := if isVcfName args.vcf then "" else args.vcf
  if iv ≠ "" then
    if !(w.pathExists iv) then
      { t with prints := t.prints ++ ["Cannot find " ++ iv], exitCode := some 1 }
    else
      let c := bgzippedVcf w iv
      { t with inputVcf := c.2, inputList := "", compressRan := c.1,
               inputBasename := getVcfPrefix c.2 }
  else if il ≠ "" then
    if !(w.pathExists il) then
      { t with prints := t.prints ++ ["Cannot find " ++ il], exitCode := some 1 }
    else
      { t with inputList := il,
               inputBasename := pathBasename (splitextRoot il) }
  else
    -- args.vcf = "": both truthiness guards are skipped; only the
    -- basename expression on line 82 still runs.
    { t with inputBasename := getVcfPrefix "" }

/-- Lines 84-87: the reference PGx position VCF must exist. -/
def refPgxPhase (w : World) (args : Args) (t : Trace) : Trace :=
  if t.exitCode.isSome then t else
  if !(w.pathExists args.reference_pgx_vcf) then
    let msg := "Error: VCF of the reference PGx positions was not found at: " ++ args.reference_pgx_vcf
    { t with prints := t.prints ++ [msg], exitCode := some 1 }
  else t

/-- Lines 92-106: record the output basename and resolve the output
directory (explicit argument, else directory of the real path of the
single input VCF, else directory of the real path of the list file). -/
def outputDirPhase (w : World) (args : Args) (t : Trace) : Trace :=
  if t.exitCode.isSome then t else
  let bf := if pyTruthy args.base_filename then args.base_filename.getD "" else ""
  let od :=
    if pyTruthy args.output_dir then args.output_dir.getD ""
    else if t.inputVcf ≠ "" then splitDirStr (w.realpath t.inputVcf)
    else splitDirStr (w.realpath t.inputList)
  { t with baseFilename := bf, outputDir := od,
           prints := t.prints ++ ["Saving output to " ++ od] }

/-- Lines 108-120: resolve the reference genome sequence: the explicit
argument is used as-is; otherwise `reference.fna.bgz` in the output
directory, then in the current working directory, else download. -/
def referencePhase (w : World) (args : Args) (t : Trace) : Trace :=
  if t.exitCode.isSome then t else
  if pyTruthy args.reference_genome then
    { t with referenceGenome := args.reference_genome.getD "" }
  else if w.pathExists (joinPath t.outputDir "reference.fna.bgz") then
    { t with referenceGenome := joinPath t.outputDir "reference.fna.bgz",
             prints := t.prints ++
               ["Using default FASTA reference at " ++ joinPath t.outputDir "reference.fna.bgz"] }
  else if w.pathExists (joinPath w.cwd "reference.fna.bgz") then
    { t with referenceGenome := joinPath w.cwd "reference.fna.bgz",
             prints := t.prints ++
               ["Using default FASTA reference at " ++ joinPath w.cwd "reference.fna.bgz"] }
  else
    { t with referenceGenome := downloadedRefName t.outputDir, downloadRan := true,
             prints := t.prints ++ ["Downloaded to " ++ downloadedRefName t.outputDir] }

/-- Lines 122-124: index the reference PGx VCF when no `.csi` companion
exists. -/
def indexPhase (w : World) (args : Args) (t : Trace) : Trace :=
  if t.exitCode.isSome then t else
  if !(w.pathExists (args.reference_pgx_vcf ++ ".csi")) then
    { t with indexedRefPgx := true }
  else t

/-- Lines 137-143: scan the list file line by line; the first stripped
line that names an existing file supplies the sample list, and scanning
stops (`break`). -/
def scanListForSamples (w : World) : List String → List String
  | [] => []
  | l :: ls =>
    let s := pyStrip l
    if w.isFile s then w.vcfSamples s else scanListForSamples w ls

/-- Lines 126-143: resolve the sample list from exactly one source:
explicit sample file, single input VCF, or first existing file in the
list file. -/
def resolveSampleList (w : World) (sampleFile : Option String) (iv il : String) :
    List String :=
  if pyTruthy sampleFile then (w.fileLines (sampleFile.getD "")).map pyStrip
  else if iv ≠ "" then w.vcfSamples iv
  else scanListForSamples w (w.fileLines il)

def samplesPhase (w : World) (args : Args) (t : Trace) : Trace :=
  if t.exitCode.isSome then t else
  { t with sampleList := resolveSampleList w args.sample_file t.inputVcf t.inputList }

/-- Lines 145-148: a comma in any sample name is fatal. -/
def commaPhase (t : Trace) : Trace :=
  if t.exitCode.isSome then t else
  if t.sampleList.any (fun s => strContainsChar s ',') then
    { t with prints := t.prints ++ [commaMsg], exitCode := some 1 }
  else t

/-- Lines 150-178: the four pipeline stages.  Each stage is a black-box
external transformation (fatal failures of the toolchain itself raise in
Python and are outside this model); the three intermediate artifact paths
are accumulated in order. -/
def pipelinePhase (w : World) (args : Args) (t : Trace) : Trace :=
  if t.exitCode.isSome then t else
  { t with regionSubsetRan := true,
           usedMultiExtract := !(t.inputList = ""),
           normalizeRan := true,
           filterRan := true,
           perSampleEmitRan := true,
           tmpFiles := [w.regionsOut, w.normalizedOut, w.pgxOnlyOut],
           emittedFiles := w.perSampleOuts }

/-- Lines 180-184: unless retention was requested, delete every
accumulated intermediate file together with its companion index. -/
def cleanupPhase (args : Args) (t : Trace) : Trace :=
  if t.exitCode.isSome then t else
  if !args.keep_intermediate_files then
    { t with prints := t.prints ++ ["Removing intermediate files:"],
             removed := t.tmpFiles.foldl (fun acc p => acc ++ removeVcfAndIndex p) [] }
  else t

/-- The `run` function of the script: the linear composition of the
phases, starting from the pristine trace. -/
def run (w : World) (args : Args) : Trace :=
  cleanupPhase args
    (pipelinePhase w args
      (commaPhase
        (samplesPhase w args
          (indexPhase w args
            (referencePhase w args
              (outputDirPhase w args
                (refPgxPhase w args
                  (inputPhase w args
                    (bgzipPhase MIN_BGZIP_VERSION w.bgzipVerMatch
                      (bcftoolsPhase MIN_BCFTOOLS_VERSION w.bcftoolsVerMatch Trace.init))))))))))

/-! ### Helper lemmas about the phases -/

/-- Fields that stay at their initial value until the pipeline runs. -/
def Untouched (t : Trace) : Prop :=
  t.regionSubsetRan = false ∧ t.normalizeRan = false ∧ t.filterRan = false ∧
  t.perSampleEmitRan = false ∧ t.removed = []

theorem bcftoolsPhase_absorb {t : Trace} (minV : String) (m : Option String)
    (h : t.exitCode.isSome = true) : bcftoolsPhase minV m t = t := by
  simp [bcftoolsPhase, h]

theorem bgzipPhase_absorb {t : Trace} (minV : String) (m : Option String)
    (h : t.exitCode.isSome = true) : bgzipPhase minV m t = t := by
  simp [bgzipPhase, h]

theorem inputPhase_absorb {t : Trace} (w : World) (args : Args)
    (h : t.exitCode.isSome = true) : inputPhase w args t = t := by
  simp [inputPhase, h]

theorem refPgxPhase_absorb {t : Trace} (w : World) (args : Args)
    (h : t.exitCode.isSome = true) : refPgxPhase w args t = t := by
  simp [refPgxPhase, h]

theorem outputDirPhase_absorb {t : Trace} (w : World) (args : Args)
    (h : t.exitCode.isSome = true) : outputDirPhase w args t = t := by
  simp [outputDirPhase, h]

theorem referencePhase_absorb {t : Trace} (w : World) (args : Args)
    (h : t.exitCode.isSome = true) : referencePhase w args t = t := by
  simp [referencePhase, h]

theorem indexPhase_absorb {t : Trace} (w : World) (args : Args)
    (h : t.exitCode.isSome = true) : indexPhase w args t = t := by
  simp [indexPhase, h]

theorem samplesPhase_absorb {t : Trace} (w : World) (args : Args)
    (h : t.exitCode.isSome = true) : samplesPhase w args t = t := by
  simp [samplesPhase, h]

theorem commaPhase_absorb {t : Trace} (h : t.exitCode.isSome = true) :
    commaPhase t = t := by
  simp [commaPhase, h]

theorem pipelinePhase_absorb {t : Trace} (w : World) (args : Args)
    (h : t.exitCode.isSome = true) : pipelinePhase w args t = t := by
  simp [pipelinePhase, h]

theorem cleanupPhase_absorb {t : Trace} (args : Args)
    (h : t.exitCode.isSome = true) : cleanupPhase args t = t := by
  simp [cleanupPhase, h]

theorem bcftoolsPhase_untouched {t : Trace} (minV : String) (m : Option String)
    (h : Untouched t) : Untouched (bcftoolsPhase minV m t) := by
  unfold Untouched at h ⊢
  simp only [bcftoolsPhase]
  (repeat' split) <;> exact h

theorem bgzipPhase_untouched {t : Trace} (minV : String) (m : Option String)
    (h : Untouched t) : Untouched (bgzipPhase minV m t) := by
  unfold Untouched at h ⊢
  simp only [bgzipPhase]
  (repeat' split) <;> exact h

theorem inputPhase_untouched {t : Trace} (w : World) (args : Args)
    (h : Untouched t) : Untouched (inputPhase w args t) := by
  unfold Untouched at h ⊢
  simp only [inputPhase]
  (repeat' split) <;> exact h

theorem refPgxPhase_untouched {t : Trace} (w : World) (args : Args)
    (h : Untouched t) : Untouched (refPgxPhase w args t) := by
  unfold Untouched at h ⊢
  simp only [refPgxPhase]
  (repeat' split) <;> exact h

theorem outputDirPhase_untouched {t : Trace} (w : World) (args : Args)
    (h : Untouched t) : Untouched (outputDirPhase w args t) := by
  unfold Untouched at h ⊢
  simp only [outputDirPhase]
  (repeat' split) <;> exact h

theorem referencePhase_untouched {t : Trace} (w : World) (args : Args)
    (h : Untouched t) : Untouched (referencePhase w args t) := by
  unfold Untouched at h ⊢
  simp only [referencePhase]
  (repeat' split) <;> exact h

theorem indexPhase_untouched {t : Trace} (w : World) (args : Args)
    (h : Untouched t) : Untouched (indexPhase w args t) := by
  unfold Untouched at h ⊢
  simp only [indexPhase]
  (repeat' split) <;> exact h

theorem samplesPhase_untouched {t : Trace} (w : World) (args : Args)
    (h : Untouched t) : Untouched (samplesPhase w args t) := by
  unfold Untouched at h ⊢
  simp only [samplesPhase]
  (repeat' split) <;> exact h

theorem commaPhase_untouched {t : Trace} (h : Untouched t) :
    Untouched (commaPhase t) := by
  unfold Untouched at h ⊢
  simp only [commaPhase]
  (repeat' split) <;> exact h

theorem bcftoolsPhase_sampleList {t : Trace} (minV : String) (m : Option String) :
    (bcftoolsPhase minV m t).sampleList = t.sampleList := by
  simp only [bcftoolsPhase]
  (repeat' split) <;> rfl

theorem bgzipPhase_sampleList {t : Trace} (minV : String) (m : Option String) :
    (bgzipPhase minV m t).sampleList = t.sampleList := by
  simp only [bgzipPhase]
  (repeat' split) <;> rfl

theorem inputPhase_sampleList {t : Trace} (w : World) (args : Args) :
    (inputPhase w args t).sampleList = t.sampleList := by
  simp only [inputPhase]
  (repeat' split) <;> rfl

theorem refPgxPhase_sampleList {t : Trace} (w : World) (args : Args) :
    (refPgxPhase w args t).sampleList = t.sampleList := by
  simp only [refPgxPhase]
  (repeat' split) <;> rfl

theorem outputDirPhase_sampleList {t : Trace} (w : World) (args : Args) :
    (outputDirPhase w args t).sampleList = t.sampleList := by
  simp only [outputDirPhase]
  (repeat' split) <;> rfl

theorem referencePhase_sampleList {t : Trace} (w : World) (args : Args) :
    (referencePhase w args t).sampleList = t.sampleList := by
  simp only [referencePhase]
  (repeat' split) <;> rfl

theorem indexPhase_sampleList {t : Trace} (w : World) (args : Args) :
    (indexPhase w args t).sampleList = t.sampleList := by
  simp only [indexPhase]
  (repeat' split) <;> rfl

theorem commaPhase_sampleList {t : Trace} :
    (commaPhase t).sampleList = t.sampleList := by
  simp only [commaPhase]
  (repeat' split) <;> rfl

theorem pipelinePhase_sampleList {t : Trace} (w : World) (args : Args) :
    (pipelinePhase w args t).sampleList = t.sampleList := by
  simp only [pipelinePhase]
  (repeat' split) <;> rfl

theorem cleanupPhase_sampleList {t : Trace} (args : Args) :
    (cleanupPhase args t).sampleList = t.sampleList := by
  simp only [cleanupPhase]
  (repeat' split) <;> rfl

theorem cleanupPhase_emittedFiles {t : Trace} (args : Args) :
    (cleanupPhase args t).emittedFiles = t.emittedFiles := by
  simp only [cleanupPhase]
  (repeat' split) <;> rfl

theorem inputPhase_checkedBgzip {t : Trace} (w : World) (args : Args) :
    (inputPhase w args t).checkedBgzip = t.checkedBgzip := by
  simp only [inputPhase]
  (repeat' split) <;> rfl

theorem refPgxPhase_checkedBgzip {t : Trace} (w : World) (args : Args) :
    (refPgxPhase w args t).checkedBgzip = t.checkedBgzip := by
  simp only [refPgxPhase]
  (repeat' split) <;> rfl

theorem outputDirPhase_checkedBgzip {t : Trace} (w : World) (args : Args) :
    (outputDirPhase w args t).checkedBgzip = t.checkedBgzip := by
  simp only [outputDirPhase]
  (repeat' split) <;> rfl

theorem referencePhase_checkedBgzip {t : Trace} (w : World) (args : Args) :
    (referencePhase w args t).checkedBgzip = t.checkedBgzip := by
  simp only [referencePhase]
  (repeat' split) <;> rfl

theorem indexPhase_checkedBgzip {t : Trace} (w : World) (args : Args) :
    (indexPhase w args t).checkedBgzip = t.checkedBgzip := by
  simp only [indexPhase]
  (repeat' split) <;> rfl

theorem samplesPhase_checkedBgzip {t : Trace} (w : World) (args : Args) :
    (samplesPhase w args t).checkedBgzip = t.checkedBgzip := by
  simp only [samplesPhase]
  (repeat' split) <;> rfl

theorem commaPhase_checkedBgzip {t : Trace} :
    (commaPhase t).checkedBgzip = t.checkedBgzip := by
  simp only [commaPhase]
  (repeat' split) <;> rfl

theorem pipelinePhase_checkedBgzip {t : Trace} (w : World) (args : Args) :
    (pipelinePhase w args t).checkedBgzip = t.checkedBgzip := by
  simp only [pipelinePhase]
  (repeat' split) <;> rfl

theorem cleanupPhase_checkedBgzip {t : Trace} (args : Args) :
    (cleanupPhase args t).checkedBgzip = t.checkedBgzip := by
  simp only [cleanupPhase]
  (repeat' split) <;> rfl

theorem outputDirPhase_exit {t : Trace} (w : World) (args : Args) :
    (outputDirPhase w args t).exitCode = t.exitCode := by
  simp only [outputDirPhase]
  (repeat' split) <;> rfl

theorem referencePhase_exit {t : Trace} (w : World) (args : Args) :
    (referencePhase w args t).exitCode = t.exitCode := by
  simp only [referencePhase]
  (repeat' split) <;> rfl

theorem indexPhase_exit {t : Trace} (w : World) (args : Args) :
    (indexPhase w args t).exitCode = t.exitCode := by
  simp only [indexPhase]
  (repeat' split) <;> rfl

theorem samplesPhase_exit {t : Trace} (w : World) (args : Args) :
    (samplesPhase w args t).exitCode = t.exitCode := by
  simp only [samplesPhase]
  (repeat' split) <;> rfl

theorem pipelinePhase_exit {t : Trace} (w : World) (args : Args) :
    (pipelinePhase w args t).exitCode = t.exitCode := by
  simp only [pipelinePhase]
  (repeat' split) <;> rfl

theorem cleanupPhase_exit {t : Trace} (args : Args) :
    (cleanupPhase args t).exitCode = t.exitCode := by
  simp only [cleanupPhase]
  (repeat' split) <;> rfl

theorem samplesPhase_run {t : Trace} (w : World) (args : Args)
    (h : t.exitCode = none) :
    samplesPhase w args t =
      { t with sampleList := resolveSampleList w args.sample_file t.inputVcf t.inputList } := by
  simp [samplesPhase, h]

theorem commaPhase_fire {t : Trace} (h : t.exitCode = none)
    (ha : t.sampleList.any (fun s => strContainsChar s ',') = true) :
    commaPhase t = { t with prints := t.prints ++ [commaMsg], exitCode := some 1 } := by
  simp [commaPhase, h, ha]

theorem commaPhase_fire_exit {t : Trace} (h : t.exitCode = none)
    (ha : t.sampleList.any (fun s => strContainsChar s ',') = true) :
    (commaPhase t).exitCode.isSome = true := by
  rw [commaPhase_fire h ha]
  rfl

theorem commaPhase_skip {t : Trace} (h : t.exitCode = none)
    (ha : t.sampleList.any (fun s => strContainsChar s ',') = false) :
    commaPhase t = t := by
  simp [commaPhase, h, ha]

theorem pipelinePhase_run {t : Trace} (w : World) (args : Args)
    (h : t.exitCode = none) :
    pipelinePhase w args t =
      { t with regionSubsetRan := true,
               usedMultiExtract := !(t.inputList = ""),
               normalizeRan := true,
               filterRan := true,
               perSampleEmitRan := true,
               tmpFiles := [w.regionsOut, w.normalizedOut, w.pgxOnlyOut],
               emittedFiles := w.perSampleOuts } := by
  simp [pipelinePhase, h]

theorem cleanupPhase_del {t : Trace} (args : Args) (h : t.exitCode = none)
    (hk : args.keep_intermediate_files = false) :
    cleanupPhase args t =
      { t with prints := t.prints ++ ["Removing intermediate files:"],
               removed := t.tmpFiles.foldl (fun acc p => acc ++ removeVcfAndIndex p) [] } := by
  simp [cleanupPhase, h, hk]

theorem cleanupPhase_keep {t : Trace} (args : Args) (h : t.exitCode = none)
    (hk : args.keep_intermediate_files = true) :
    cleanupPhase args t = t := by
  simp [cleanupPhase, h, hk]

theorem bcftoolsPhase_none {t : Trace} (minV : String) (h : t.exitCode = none) :
    bcftoolsPhase minV none t =
      { t with prints := t.prints ++ [bcftoolsNoVerMsg, bcftoolsLowMsg minV] } := by
  simp [bcftoolsPhase, h]

theorem bgzipPhase_none {t : Trace} (minV : String) (h : t.exitCode = none) :
    bgzipPhase minV none t =
      { t with checkedBgzip := true,
               prints := t.prints ++ [bgzipNoVerMsg minV], exitCode := some 1 } := by
  simp [bgzipPhase, h]

theorem bgzipPhase_checked {t : Trace} (minV : String) (m : Option String)
    (h : t.exitCode = none) : (bgzipPhase minV m t).checkedBgzip = true := by
  cases m <;> simp [bgzipPhase, h] <;> split <;> rfl

theorem bcftoolsPhase_exitOr {t : Trace} (minV : String) (m : Option String) :
    (bcftoolsPhase minV m t).exitCode = t.exitCode ∨
    (bcftoolsPhase minV m t).exitCode = some 1 := by
  simp only [bcftoolsPhase]
  (repeat' split) <;> first | (left; rfl) | (right; rfl)

theorem bgzipPhase_exitOr {t : Trace} (minV : String) (m : Option String) :
    (bgzipPhase minV m t).exitCode = t.exitCode ∨
    (bgzipPhase minV m t).exitCode = some 1 := by
  simp only [bgzipPhase]
  (repeat' split) <;> first | (left; rfl) | (right; rfl)

/-! ### Concrete fixtures used by the witness theorems -/

/-- A world in which every environment check passes: both tools report
version 1.16, all paths exist, the single input VCF is already
block-compressed and carries one comma-free sample. -/
def baseWorld : World :=
  { bcftoolsVerMatch := some "1.16", bgzipVerMatch := some "1.16",
    pathExists := fun _ => true, isFile := fun _ => true,
    realpath := fun s => s, cwd := "/cwd",
    isBgzipped := fun _ => true, fileLines := fun _ => ["S1"],
    vcfSamples := fun _ => ["S1"],
    regionsOut := "/out/r.vcf.bgz", normalizedOut := "/out/n.vcf.bgz",
    pgxOnlyOut := "/out/p.vcf.bgz", perSampleOuts := ["/out/a.S1.vcf.bgz"] }

def baseArgs : Args :=
  { vcf := "/d/a.vcf", reference_pgx_vcf := "/d/pos.vcf.bgz",
    reference_genome := some "/d/ref.fna", sample_file := none,
    path_to_bcftools := none, path_to_bgzip := none,
    output_dir := some "/out", base_filename := none,
    keep_intermediate_files := false, missing_to_ref := false }

def wNoBcfVer : World := { baseWorld with bcftoolsVerMatch := none }

def wNoBgzVer : World := { baseWorld with bgzipVerMatch := none }

/-! ### Claim theorems -/

/-- C1 (counterexample to the claim as stated): for the semantically
ordered pair `"1.0" < "1.1"`, the Environment Validator run with minimum
version `"1.0"` does NOT reject a tool reporting version `"1.0"`: the
comparison on lines 36 and 51 is strict, so a tool reporting exactly the
minimum continues past the check instead of terminating. -/
theorem version_boundary_counterexample :
    pyVersionLt "1.0" "1.1" = true ∧
    (bcftoolsPhase "1.0" (some "1.0") Trace.init).exitCode = none ∧
    (bgzipPhase "1.0" (some "1.0") Trace.init).exitCode = none := by
  decide

/-- C1 (amended): for every pair of version strings `v1 < v2` under
semantic ordering, the Environment Validator run with minimum version
`v1` accepts a tool reporting `v2` (continues past the check), and the
validator run with minimum version `v2` rejects a tool reporting `v1`
(terminates with failure status); i.e. rejection happens exactly for
reported versions strictly below the minimum. -/
theorem version_gate_orders_semantically (v1 v2 : String) (t : Trace)
    (ht : t.exitCode = none) (h : pyVersionLt v1 v2 = true) :
    (bcftoolsPhase v1 (some v2) t).exitCode = none ∧
    (bgzipPhase v1 (some v2) t).exitCode = none ∧
    (bcftoolsPhase v2 (some v1) t).exitCode = some 1 ∧
    (bgzipPhase v2 (some v1) t).exitCode = some 1 := by
  have h' : releaseLt (parseRelease v1) (parseRelease v2) = true := h
  have hf : pyVersionLt v2 v1 = false := releaseLt_asymm h'
  refine ⟨?_, ?_, ?_, ?_⟩ <;>
    simp [bcftoolsPhase, bgzipPhase, ht, hf, h]

theorem version_gate_orders_semantically_witness :
    (bcftoolsPhase "1.16" (some "1.17") Trace.init).exitCode = none ∧
    (bgzipPhase "1.16" (some "1.17") Trace.init).exitCode = none ∧
    (bcftoolsPhase "1.17" (some "1.16") Trace.init).exitCode = some 1 ∧
    (bgzipPhase "1.17" (some "1.16") Trace.init).exitCode = some 1 :=
  version_gate_orders_semantically "1.16" "1.17" Trace.init rfl (by decide)

/-- C2: when the bcftools version output cannot be parsed the validator
only prints a warning and execution continues (at run level, the bgzip
check is still reached); when the bgzip version output cannot be parsed
the validator prints an error and the run terminates with failure
status. -/
theorem unparseable_version_asymmetry (minB minZ : String) (t : Trace)
    (w : World) (args : Args) (ht : t.exitCode = none) :
    ((bcftoolsPhase minB none t).exitCode = none ∧
     (bcftoolsPhase minB none t).prints = t.prints ++ [bcftoolsNoVerMsg, bcftoolsLowMsg minB]) ∧
    ((bgzipPhase minZ none t).exitCode = some 1 ∧
     (bgzipPhase minZ none t).prints = t.prints ++ [bgzipNoVerMsg minZ]) ∧
    (w.bcftoolsVerMatch = none → (run w args).checkedBgzip = true) ∧
    (w.bgzipVerMatch = none → (run w args).exitCode = some 1) := by
  refine ⟨⟨?_, ?_⟩, ⟨?_, ?_⟩, ?_, ?_⟩
  · rw [bcftoolsPhase_none minB ht]; exact ht
  · rw [bcftoolsPhase_none minB ht]
  · rw [bgzipPhase_none minZ ht]
  · rw [bgzipPhase_none minZ ht]
  · intro hb
    simp only [run, cleanupPhase_checkedBgzip, pipelinePhase_checkedBgzip,
      commaPhase_checkedBgzip, samplesPhase_checkedBgzip, indexPhase_checkedBgzip,
      referencePhase_checkedBgzip, outputDirPhase_checkedBgzip,
      refPgxPhase_checkedBgzip, inputPhase_checkedBgzip, hb]
    exact bgzipPhase_checked _ _ (by rw [bcftoolsPhase_none _ rfl]; rfl)
  · intro hz
    have hexit2 : (bgzipPhase MIN_BGZIP_VERSION w.bgzipVerMatch
        (bcftoolsPhase MIN_BCFTOOLS_VERSION w.bcftoolsVerMatch Trace.init)).exitCode = some 1 := by
      rcases bcftoolsPhase_exitOr (t := Trace.init) MIN_BCFTOOLS_VERSION w.bcftoolsVerMatch with h1 | h1
      · rw [hz, bgzipPhase_none MIN_BGZIP_VERSION (h1.trans rfl)]
      · rw [bgzipPhase_absorb MIN_BGZIP_VERSION w.bgzipVerMatch (by rw [h1]; rfl)]
        exact h1
    have habs : (bgzipPhase MIN_BGZIP_VERSION w.bgzipVerMatch
        (bcftoolsPhase MIN_BCFTOOLS_VERSION w.bcftoolsVerMatch Trace.init)).exitCode.isSome = true := by
      rw [hexit2]; rfl
    simp only [run]
    rw [inputPhase_absorb w args habs, refPgxPhase_absorb w args habs,
        outputDirPhase_absorb w args habs, referencePhase_absorb w args habs,
        indexPhase_absorb w args habs, samplesPhase_absorb w args habs,
        commaPhase_absorb habs, pipelinePhase_absorb w args habs,
        cleanupPhase_absorb args habs]
    exact hexit2

theorem unparseable_version_asymmetry_witness :
    (bcftoolsPhase "1.16" none Trace.init).exitCode = none ∧
    (bgzipPhase "1.16" none Trace.init).exitCode = some 1 ∧
    (run wNoBcfVer baseArgs).checkedBgzip = true ∧
    (run wNoBgzVer baseArgs).exitCode = some 1 :=
  ⟨(unparseable_version_asymmetry "1.16" "1.16" Trace.init wNoBcfVer baseArgs rfl).1.1,
   (unparseable_version_asymmetry "1.16" "1.16" Trace.init wNoBcfVer baseArgs rfl).2.1.1,
   (unparseable_version_asymmetry "1.16" "1.16" Trace.init wNoBcfVer baseArgs rfl).2.2.1 rfl,
   (unparseable_version_asymmetry "1.16" "1.16" Trace.init wNoBgzVer baseArgs rfl).2.2.2 rfl⟩

/-- C4: version comparison against the fixed minimum constants is
numeric, not lexical: a tool reporting `"1.9"` is rejected against the
minimum `"1.16"` (terminates with failure status), even though `"1.16"`
precedes `"1.9"` in lexicographic string order. -/
theorem numeric_not_lexical_version_order :
    pyVersionLt "1.9" MIN_BCFTOOLS_VERSION = true ∧
    (bcftoolsPhase MIN_BCFTOOLS_VERSION (some "1.9") Trace.init).exitCode = some 1 ∧
    (bgzipPhase MIN_BGZIP_VERSION (some "1.9") Trace.init).exitCode = some 1 ∧
    lexStrLt MIN_BCFTOOLS_VERSION "1.9" = true := by
  decide

/-- C3: whenever the resolved sample set contains an identifier with a
comma, the run prints the naming-convention error and terminates with
failure status before any pipeline stage (region subset, normalize,
position filter, per-sample emit) executes. -/
theorem comma_sample_aborts (w : World) (args : Args)
    (h : (run w args).sampleList.any (fun s => strContainsChar s ',') = true) :
    (run w args).exitCode = some 1 ∧
    (run w args).regionSubsetRan = false ∧
    (run w args).normalizeRan = false ∧
    (run w args).filterRan = false ∧
    (run w args).perSampleEmitRan = false ∧
    commaMsg ∈ (run w args).prints := by
  simp only [run] at h ⊢
  set t7 := indexPhase w args (referencePhase w args (outputDirPhase w args
    (refPgxPhase w args (inputPhase w args (bgzipPhase MIN_BGZIP_VERSION w.bgzipVerMatch
      (bcftoolsPhase MIN_BCFTOOLS_VERSION w.bcftoolsVerMatch Trace.init)))))) with ht7
  have hU : Untouched t7 := by
    rw [ht7]
    exact indexPhase_untouched w args (referencePhase_untouched w args
      (outputDirPhase_untouched w args (refPgxPhase_untouched w args
        (inputPhase_untouched w args (bgzipPhase_untouched _ _
          (bcftoolsPhase_untouched _ _ ⟨rfl, rfl, rfl, rfl, rfl⟩))))))
  have hS : t7.sampleList = [] := by
    rw [ht7]
    simp only [indexPhase_sampleList, referencePhase_sampleList, outputDirPhase_sampleList,
      refPgxPhase_sampleList, inputPhase_sampleList, bgzipPhase_sampleList,
      bcftoolsPhase_sampleList]
    rfl
  rw [cleanupPhase_sampleList, pipelinePhase_sampleList, commaPhase_sampleList] at h
  cases hx : t7.exitCode with
  | some c =>
    have hi : t7.exitCode.isSome = true := by rw [hx]; rfl
    rw [samplesPhase_absorb w args hi, hS] at h
    exact absurd h (by decide)
  | none =>
    have hx8 : (samplesPhase w args t7).exitCode = none := by
      rw [samplesPhase_exit w args]; exact hx
    obtain ⟨v1, v2, v3, v4, v5⟩ :=
      samplesPhase_untouched w args (t := t7) hU
    rw [pipelinePhase_absorb w args (commaPhase_fire_exit hx8 h),
        cleanupPhase_absorb args (commaPhase_fire_exit hx8 h)]
    rw [commaPhase_fire hx8 h]
    exact ⟨rfl, v1, v2, v3, v4,
      List.mem_append_right _ (List.mem_singleton_self commaMsg)⟩

def wCommaSample : World := { baseWorld with vcfSamples := fun _ => ["S,1"] }

theorem comma_sample_aborts_witness :
    (run wCommaSample baseArgs).exitCode = some 1 ∧
    (run wCommaSample baseArgs).regionSubsetRan = false ∧
    (run wCommaSample baseArgs).normalizeRan = false ∧
    (run wCommaSample baseArgs).filterRan = false ∧
    (run wCommaSample baseArgs).perSampleEmitRan = false ∧
    commaMsg ∈ (run wCommaSample baseArgs).prints :=
  comma_sample_aborts wCommaSample baseArgs (by decide)

theorem scanListForSamples_first (w : World) (pre : List String) (fl : String)
    (post : List String) (hpre : ∀ l ∈ pre, w.isFile (pyStrip l) = false)
    (hf : w.isFile (pyStrip fl) = true) :
    scanListForSamples w (pre ++ fl :: post) = w.vcfSamples (pyStrip fl) := by
  induction pre with
  | nil => simp [scanListForSamples, hf]
  | cons a as ih =>
    have ha := hpre a (List.mem_cons_self a as)
    simp only [List.cons_append, scanListForSamples, ha]
    simp only [Bool.false_eq_true, if_false]
    exact ih fun l hl => hpre l (List.mem_cons_of_mem a hl)

/-- C5: the sample set is resolved from exactly one of three sources with
fixed precedence: an explicit sample file's stripped lines in order;
otherwise, for a single input VCF, that file's embedded sample list;
otherwise the first line of the list file that names an existing file
supplies the samples and scanning stops (later lines are never
inspected — the conclusion does not depend on `post`). -/
theorem sample_resolution_precedence (w : World) (sf : String) (iv il : String) :
    (sf ≠ "" →
      resolveSampleList w (some sf) iv il = (w.fileLines sf).map pyStrip) ∧
    (∀ o : Option String, pyTruthy o = false → iv ≠ "" →
      resolveSampleList w o iv il = w.vcfSamples iv) ∧
    (∀ (o : Option String) (pre : List String) (fl : String) (post : List String),
      pyTruthy o = false → iv = "" →
      w.fileLines il = pre ++ fl :: post →
      (∀ l ∈ pre, w.isFile (pyStrip l) = false) →
      w.isFile (pyStrip fl) = true →
      resolveSampleList w o iv il = w.vcfSamples (pyStrip fl)) := by
  refine ⟨?_, ?_, ?_⟩
  · intro hsf
    have htr : pyTruthy (some sf) = true := by simp [pyTruthy, hsf]
    simp [resolveSampleList, htr]
  · intro o ho hiv
    simp [resolveSampleList, ho, hiv]
  · intro o pre fl post ho hiv hlines hpre hf
    subst hiv
    have hred : resolveSampleList w o "" il = scanListForSamples w (w.fileLines il) := by
      simp [resolveSampleList, ho]
    rw [hred, hlines]
    exact scanListForSamples_first w pre fl post hpre hf

def wScanList : World :=
  { baseWorld with
    isFile := fun s => s = "/d/b.vcf",
    fileLines := fun p => if p = "/d/list.txt"
      then ["/d/nope.vcf", "/d/b.vcf", "/d/later.vcf"] else ["S1"],
    vcfSamples := fun s => if s = "/d/b.vcf" then ["SB"] else ["S1"] }

theorem sample_resolution_precedence_witness :
    resolveSampleList baseWorld (some "/d/s.txt") "/d/a.vcf" "" = ["S1"] ∧
    resolveSampleList baseWorld none "/d/a.vcf" "" = ["S1"] ∧
    resolveSampleList wScanList none "" "/d/list.txt" = ["SB"] := by
  refine ⟨?_, ?_, ?_⟩
  · rw [(sample_resolution_precedence baseWorld "/d/s.txt" "/d/a.vcf" "").1 (by decide)]
    decide
  · rw [(sample_resolution_precedence baseWorld "" "/d/a.vcf" "").2.1 none rfl (by decide)]
    decide
  · rw [(sample_resolution_precedence wScanList "" "" "/d/list.txt").2.2 none
      ["/d/nope.vcf"] "/d/b.vcf" ["/d/later.vcf"] rfl rfl (by decide) (by decide) (by decide)]
    decide

theorem pyStrip_blank {s : String} (h : s.toList.all pyIsSpaceChar = true) :
    pyStrip s = "" := by
  unfold pyStrip
  have h1 : s.toList.dropWhile pyIsSpaceChar = [] := by
    rw [List.dropWhile_eq_nil_iff]
    intro x hx
    exact List.all_eq_true.mp h x hx
  rw [h1]
  rfl

/-- C9: with an explicit sample file, every line contributes one entry to
the resolved sample set after stripping (the length is preserved, so
nothing is skipped), and a whitespace-only line contributes the empty
string as a sample identifier. -/
theorem blank_sample_lines_kept (w : World) (sf : String) (iv il : String)
    (i : Nat) (hsf : sf ≠ "") :
    (resolveSampleList w (some sf) iv il).length = (w.fileLines sf).length ∧
    (i < (w.fileLines sf).length →
      ((w.fileLines sf).getD i "x").toList.all pyIsSpaceChar = true →
      (resolveSampleList w (some sf) iv il).getD i "x" = "") := by
  have htr : pyTruthy (some sf) = true := by simp [pyTruthy, hsf]
  have hres : resolveSampleList w (some sf) iv il = (w.fileLines sf).map pyStrip := by
    simp [resolveSampleList, htr]
  rw [hres]
  constructor
  · exact List.length_map _ _
  · intro hi hblank
    rw [List.getD_eq_getElem?_getD, List.getElem?_map,
        List.getElem?_eq_getElem hi]
    have hget : (w.fileLines sf).getD i "x" = (w.fileLines sf)[i] := by
      rw [List.getD_eq_getElem?_getD, List.getElem?_eq_getElem hi]
      rfl
    rw [hget] at hblank
    exact pyStrip_blank hblank

def wBlankLines : World := { baseWorld with fileLines := fun _ => ["  ", "S1"] }

theorem blank_sample_lines_kept_witness :
    (resolveSampleList wBlankLines (some "/d/s.txt") "/d/a.vcf" "").length = 2 ∧
    (resolveSampleList wBlankLines (some "/d/s.txt") "/d/a.vcf" "").getD 0 "x" = "" := by
  have h := blank_sample_lines_kept wBlankLines "/d/s.txt" "/d/a.vcf" "" 0 (by decide)
  exact ⟨h.1.trans (by decide), h.2 (by decide) (by decide)⟩

/-- C6: reference genome resolution takes exactly one of four mutually
exclusive, short-circuiting paths: a (truthy) caller-supplied path is
used as-is with no download and no filesystem consultation; otherwise
`reference.fna.bgz` in the output directory; otherwise the same filename
in the current working directory; otherwise the default reference is
downloaded into the output directory. -/
theorem reference_resolution_paths (w : World) (args : Args) (t : Trace)
    (ht : t.exitCode = none) :
    (pyTruthy args.reference_genome = true →
      (referencePhase w args t).referenceGenome = args.reference_genome.getD "" ∧
      (referencePhase w args t).downloadRan = t.downloadRan) ∧
    (pyTruthy args.reference_genome = false →
      w.pathExists (joinPath t.outputDir "reference.fna.bgz") = true →
      (referencePhase w args t).referenceGenome = joinPath t.outputDir "reference.fna.bgz" ∧
      (referencePhase w args t).downloadRan = t.downloadRan) ∧
    (pyTruthy args.reference_genome = false →
      w.pathExists (joinPath t.outputDir "reference.fna.bgz") = false →
      w.pathExists (joinPath w.cwd "reference.fna.bgz") = true →
      (referencePhase w args t).referenceGenome = joinPath w.cwd "reference.fna.bgz" ∧
      (referencePhase w args t).downloadRan = t.downloadRan) ∧
    (pyTruthy args.reference_genome = false →
      w.pathExists (joinPath t.outputDir "reference.fna.bgz") = false →
      w.pathExists (joinPath w.cwd "reference.fna.bgz") = false →
      (referencePhase w args t).referenceGenome = downloadedRefName t.outputDir ∧
      (referencePhase w args t).downloadRan = true) := by
  refine ⟨?_, ?_, ?_, ?_⟩
  · intro h1
    simp [referencePhase, ht, h1]
  · intro h1 h2
    simp [referencePhase, ht, h1, h2]
  · intro h1 h2 h3
    simp [referencePhase, ht, h1, h2, h3]
  · intro h1 h2 h3
    simp [referencePhase, ht, h1, h2, h3]

def wNoFiles : World := { baseWorld with pathExists := fun _ => false }

def argsNoRefFna : Args := { baseArgs with reference_genome := none }

theorem reference_resolution_paths_witness :
    ((referencePhase baseWorld baseArgs Trace.init).referenceGenome =
        baseArgs.reference_genome.getD "" ∧
      (referencePhase baseWorld baseArgs Trace.init).downloadRan = Trace.init.downloadRan) ∧
    ((referencePhase wNoFiles argsNoRefFna Trace.init).referenceGenome =
        downloadedRefName Trace.init.outputDir ∧
      (referencePhase wNoFiles argsNoRefFna Trace.init).downloadRan = true) :=
  ⟨(reference_resolution_paths baseWorld baseArgs Trace.init rfl).1 (by decide),
   (reference_resolution_paths wNoFiles argsNoRefFna Trace.init rfl).2.2.2 rfl rfl rfl⟩

theorem isVcfName_ne_empty {s : String} (h : isVcfName s = true) : s ≠ "" := by
  intro he
  rw [he] at h
  exact absurd h (by decide)

/-- C7 (counterexample to the claim as stated): the empty string does not
match the variant-file suffix regex, so by the claim it is classified as
a list file whose absence should be fatal; but both Python truthiness
guards (`if input_vcf:` / `if input_list:`) are falsy for `""`, so the
existence check is skipped and the run continues instead of exiting with
status 1. -/
theorem empty_path_skips_existence_check :
    isVcfName "" = false ∧
    wNoFiles.pathExists "" = false ∧
    (inputPhase wNoFiles { baseArgs with vcf := "" } Trace.init).exitCode = none := by
  decide

/-- C7 (amended): the `vcf` argument is classified as a single variant
file exactly when its basename ends in `.vcf`, `.vcf.gz` or `.vcf.bgz`,
and as a list file for any other non-empty path (the degenerate empty
path skips both branches).  A nonexistent single file is fatal; an
existing one is recorded, block-compressed as a copy exactly when not
already block-compressed.  A nonexistent list file is fatal; an existing
one is only recorded — the classification consults only `os.path.exists`
and the compression state, never the file contents. -/
theorem input_classification (w : World) (args : Args) (t : Trace)
    (ht : t.exitCode = none) :
    (isVcfName args.vcf = true → w.pathExists args.vcf = false →
      (inputPhase w args t).exitCode = some 1) ∧
    (isVcfName args.vcf = true → w.pathExists args.vcf = true →
      w.isBgzipped args.vcf = true →
      (inputPhase w args t).inputVcf = args.vcf ∧
      (inputPhase w args t).inputList = "" ∧
      (inputPhase w args t).compressRan = false ∧
      (inputPhase w args t).exitCode = none) ∧
    (isVcfName args.vcf = true → w.pathExists args.vcf = true →
      w.isBgzipped args.vcf = false →
      (inputPhase w args t).inputVcf = bgzCopyName args.vcf ∧
      (inputPhase w args t).compressRan = true ∧
      (inputPhase w args t).exitCode = none) ∧
    (isVcfName args.vcf = false → args.vcf ≠ "" → w.pathExists args.vcf = false →
      (inputPhase w args t).exitCode = some 1) ∧
    (isVcfName args.vcf = false → args.vcf ≠ "" → w.pathExists args.vcf = true →
      (inputPhase w args t).inputList = args.vcf ∧
      (inputPhase w args t).inputVcf = t.inputVcf ∧
      (inputPhase w args t).exitCode = none) ∧
    (∀ w' : World, w.pathExists = w'.pathExists → w.isBgzipped = w'.isBgzipped →
      inputPhase w args t = inputPhase w' args t) := by
  refine ⟨?_, ?_, ?_, ?_, ?_, ?_⟩
  · intro hv hex
    have hne := isVcfName_ne_empty hv
    simp [inputPhase, ht, hv, hne, hex]
  · intro hv hex hbz
    have hne := isVcfName_ne_empty hv
    simp [inputPhase, ht, hv, hne, hex, bgzippedVcf, hbz]
  · intro hv hex hbz
    have hne := isVcfName_ne_empty hv
    simp [inputPhase, ht, hv, hne, hex, bgzippedVcf, hbz]
  · intro hv hne hex
    simp [inputPhase, ht, hv, hne, hex]
  · intro hv hne hex
    simp [inputPhase, ht, hv, hne, hex]
  · intro w' hpe hbz
    simp only [inputPhase, bgzippedVcf, hpe, hbz]

def wPlainVcf : World := { baseWorld with isBgzipped := fun _ => false }

theorem input_classification_witness :
    (inputPhase wNoFiles { baseArgs with vcf := "/d/list.txt" } Trace.init).exitCode = some 1 ∧
    (inputPhase baseWorld baseArgs Trace.init).inputVcf = "/d/a.vcf" ∧
    (inputPhase wPlainVcf baseArgs Trace.init).compressRan = true :=
  ⟨(input_classification wNoFiles { baseArgs with vcf := "/d/list.txt" } Trace.init
      rfl).2.2.2.1 (by decide) (by decide) rfl,
   ((input_classification baseWorld baseArgs Trace.init rfl).2.1 (by decide) rfl rfl).1,
   ((input_classification wPlainVcf baseArgs Trace.init rfl).2.2.1 (by decide) rfl rfl).2.1⟩

/-- C8: on a successful run without the retention flag, cleanup deletes
exactly the three intermediate artifacts accumulated by the pipeline
(region-subset, normalized, position-filtered), each together with its
companion index file; the per-sample output files (distinct artifacts)
are never deleted; with the retention flag set nothing is deleted. -/
theorem cleanup_removes_exactly_intermediates (w : World) (args : Args)
    (h : (run w args).exitCode = none) :
    (args.keep_intermediate_files = false →
      (run w args).removed =
        removeVcfAndIndex w.regionsOut ++ removeVcfAndIndex w.normalizedOut ++
          removeVcfAndIndex w.pgxOnlyOut) ∧
    (args.keep_intermediate_files = true → (run w args).removed = []) ∧
    (run w args).emittedFiles = w.perSampleOuts ∧
    (∀ f ∈ w.perSampleOuts,
      f ∉ removeVcfAndIndex w.regionsOut ++ removeVcfAndIndex w.normalizedOut ++
          removeVcfAndIndex w.pgxOnlyOut →
      f ∉ (run w args).removed) := by
  simp only [run] at h ⊢
  set t9 := commaPhase (samplesPhase w args (indexPhase w args (referencePhase w args
    (outputDirPhase w args (refPgxPhase w args (inputPhase w args
      (bgzipPhase MIN_BGZIP_VERSION w.bgzipVerMatch
        (bcftoolsPhase MIN_BCFTOOLS_VERSION w.bcftoolsVerMatch Trace.init)))))))) with ht9
  have h9 : t9.exitCode = none := by
    rw [cleanupPhase_exit args, pipelinePhase_exit w args] at h
    exact h
  have hU9 : Untouched t9 := by
    rw [ht9]
    exact commaPhase_untouched (samplesPhase_untouched w args
      (indexPhase_untouched w args (referencePhase_untouched w args
        (outputDirPhase_untouched w args (refPgxPhase_untouched w args
          (inputPhase_untouched w args (bgzipPhase_untouched _ _
            (bcftoolsPhase_untouched _ _ ⟨rfl, rfl, rfl, rfl, rfl⟩))))))))
  obtain ⟨u1, u2, u3, u4, u5⟩ := hU9
  have hp := pipelinePhase_run w args h9
  have hR : (pipelinePhase w args t9).exitCode = none := by
    rw [pipelinePhase_exit w args]
    exact h9
  cases hk : args.keep_intermediate_files with
  | false =>
    have hrm : (cleanupPhase args (pipelinePhase w args t9)).removed =
        removeVcfAndIndex w.regionsOut ++ removeVcfAndIndex w.normalizedOut ++
          removeVcfAndIndex w.pgxOnlyOut := by
      rw [cleanupPhase_del args hR hk, hp]
      simp [removeVcfAndIndex]
    refine ⟨fun _ => hrm, fun hc => absurd hc (by decide), ?_, ?_⟩
    · rw [cleanupPhase_emittedFiles args, hp]
    · intro f hf hnot
      rw [hrm]
      exact hnot
  | true =>
    rw [cleanupPhase_keep args hR hk]
    refine ⟨fun hc => absurd hc (by decide), fun _ => ?_, ?_, ?_⟩
    · rw [hp]
      exact u5
    · rw [hp]
    · intro f hf hnot
      rw [hp]
      simp [u5]

def argsKeep : Args := { baseArgs with keep_intermediate_files := true }

theorem cleanup_removes_exactly_intermediates_witness :
    (run baseWorld baseArgs).removed =
      ["/out/r.vcf.bgz", "/out/r.vcf.bgz.csi", "/out/n.vcf.bgz", "/out/n.vcf.bgz.csi",
       "/out/p.vcf.bgz", "/out/p.vcf.bgz.csi"] ∧
    (run baseWorld argsKeep).removed = [] ∧
    "/out/a.S1.vcf.bgz" ∉ (run baseWorld baseArgs).removed := by
  refine ⟨?_, ?_, ?_⟩
  · rw [(cleanup_removes_exactly_intermediates baseWorld baseArgs (by decide)).1 rfl]
    decide
  · exact (cleanup_removes_exactly_intermediates baseWorld argsKeep (by decide)).2.1 rfl
  · exact (cleanup_removes_exactly_intermediates baseWorld baseArgs (by decide)).2.2.2
      "/out/a.S1.vcf.bgz" (by decide) (by decide)

/-- C10: when no output directory is supplied and the input was
classified as a list file (no single input VCF), the output directory is
the directory of the real path of the list file itself; in particular it
does not depend on the files named inside the list. -/
theorem output_dir_from_list_path (w : World) (args : Args) (t : Trace)
    (ht : t.exitCode = none) (ho : pyTruthy args.output_dir = false)
    (hiv : t.inputVcf = "") :
    (outputDirPhase w args t).outputDir = splitDirStr (w.realpath t.inputList) := by
  simp [outputDirPhase, ht, ho, hiv]

def wListContents : World :=
  { baseWorld with realpath := fun s => s, fileLines := fun _ => ["/other/a.vcf"] }

def argsNoOut : Args := { baseArgs with output_dir := none, vcf := "/data/batch.txt" }

def tListInput : Trace := { Trace.init with inputList := "/data/batch.txt" }

theorem output_dir_from_list_path_witness :
    (outputDirPhase wListContents argsNoOut tListInput).outputDir = "/data" ∧
    ("/data" : String) ≠ "/other" := by
  constructor
  · rw [output_dir_from_list_path wListContents argsNoOut tListInput rfl rfl rfl]
    decide
  · decide

end PharmCAT
